import Mathlib

/-!
Shallow embedding of `joe-jhou2/scrnaseq_pipeline`:
* `Daemon` models `src/Nextflow_setup/simple_daemon_test.py` — the PID-file
  based process supervisor (`SimpleDaemon.run`, `stop_daemon`, `status_daemon`).
  The filesystem (PID file content plus the heartbeat log) is explicit state;
  the OS process table and signal permissions are an explicit environment;
  wall-clock time is a monotone sequence of non-negative increments; Python
  exceptions that escape a command surface as an `exn` field / `Except`.
* `Reg` models the duplicate check in
  `src/Sample_Registration_Streamlit/script.py` (`register_sample`,
  `bulk_upload`), with the database table as an explicit list of rows.
-/

namespace Daemon

/-- The distinct messages `SimpleDaemon` writes to its log, one constructor
per `self.log(...)` call site in the source.  `Msg.render` gives the exact
string the source would write. -/
inductive Msg where
  | sep
  | testStarted
  | checkIntervalLine (i : Nat)
  | logFileLine (p : String)
  | pidFileLine (p : String)
  | startedWithPid (pid : Int)
  | heartbeat (k : Nat)
  | interruptReceived
  | stoppedGracefully
  | errorLine (e : String)
deriving DecidableEq

/-- The exact log texts from the source (`"="*60`, `"Check #%d: ..."`, etc.). -/
def Msg.render : Msg → String
  | .sep => String.mk (List.replicate 60 '=')
  | .testStarted => "Simple Daemon Test Started"
  | .checkIntervalLine i => "Check interval: " ++ toString i ++ " seconds"
  | .logFileLine p => "Log file: " ++ p
  | .pidFileLine p => "PID file: " ++ p
  | .startedWithPid pid => "Daemon started with PID: " ++ toString pid
  | .heartbeat k => "Check #" ++ toString k ++ ": Daemon is alive and working!"
  | .interruptReceived => "\nReceived interrupt signal, shutting down..."
  | .stoppedGracefully => "Daemon stopped gracefully"
  | .errorLine e => "ERROR: " ++ e

/-- Heartbeat lines are those written by the body of the `while True` loop. -/
def Msg.isHeartbeat : Msg → Bool
  | .heartbeat _ => true
  | _ => false

/-- One line of `daemon_test.log`: the `[timestamp] message` pair written by
`SimpleDaemon.log`.  Wall-clock time is modelled as a natural number. -/
structure LogEntry where
  ts : Nat
  msg : Msg
deriving DecidableEq

/-- The files the scripts touch: the PID file (`daemon_test.pid`, `none` when
absent, otherwise its raw text content) and the log file as a line list. -/
structure Fs where
  pidFile : Option String
  log : List LogEntry
deriving DecidableEq

/-- OS environment: our own pid (`os.getpid()`), which pids exist, and which
pids we may signal.  `os.kill(p, sig)` succeeds iff `alive p` and
`permitted p`; otherwise it raises `OSError` (`ESRCH` resp. `EPERM`). -/
structure OS where
  selfPid : Int
  alive : Int → Bool
  permitted : Int → Bool

/-- Wall clock: `t0` at process start, and a non-negative increment `delta j`
of elapsed time between the `j`-th and `j+1`-th log write (`datetime.now()`
is monotone in this model). -/
structure TimeEnv where
  t0 : Nat
  delta : Nat → Nat

/-- Timestamp observed at the `j`-th log write. -/
def tsAt (env : TimeEnv) : Nat → Nat
  | 0 => env.t0
  | j + 1 => tsAt env j + env.delta j

/-- Constructor arguments of `SimpleDaemon.__init__`. -/
structure Cfg where
  log_file : String
  check_interval : Nat

/-- Python `str.strip()`: drop leading and trailing whitespace. -/
def pyStrip (s : String) : String :=
  String.mk (((s.data.dropWhile Char.isWhitespace).reverse.dropWhile
    Char.isWhitespace).reverse)

/-- Digits-only string to a number (`none` when empty or non-digit). -/
def digitsToNat (l : List Char) : Option Nat :=
  if l = [] then none
  else if l.all Char.isDigit then
    some (l.foldl (fun n c => n * 10 + (c.toNat - 48)) 0)
  else none

/-- `int(content.strip())` on the PID file text: `some` the integer, `none`
when Python would raise `ValueError` (optional sign followed by digits;
exotic forms such as digit-group underscores are out of scope). -/
def parsePid (s : String) : Option Int :=
  match (pyStrip s).data with
  | '-' :: rest => (digitsToNat rest).map fun n => -(n : Int)
  | '+' :: rest => (digitsToNat rest).map fun n => (n : Int)
  | cs => (digitsToNat cs).map fun n => (n : Int)

/-- How `SimpleDaemon.log` renders a line into the file. -/
def renderEntry (e : LogEntry) : String :=
  "[" ++ toString e.ts ++ "] " ++ e.msg.render

/-- Running state of the daemon process: the filesystem plus the index of the
next log write (which determines its timestamp). -/
abbrev St := Fs × Nat

/-- `SimpleDaemon.log`: append one timestamped line to the log file. -/
def log (env : TimeEnv) (st : St) (m : Msg) : St :=
  (⟨st.1.pidFile, st.1.log ++ [⟨tsAt env st.2, m⟩]⟩, st.2 + 1)

/-- `SimpleDaemon.remove_pid`: delete the PID file if it exists. -/
def remove_pid (fs : Fs) : Fs :=
  ⟨none, fs.log⟩

/-- `SimpleDaemon.write_pid`: write our own pid to the PID file, then log
`"Daemon started with PID: ..."`. -/
def write_pid (os : OS) (env : TimeEnv) (st : St) : St :=
  log env (⟨some (toString os.selfPid), st.1.log⟩, st.2) (.startedWithPid os.selfPid)

/-- `SimpleDaemon.is_running`: no PID file means not running; otherwise parse
the recorded pid (`ValueError` propagates) and probe it with `os.kill(pid, 0)`.
Any `OSError` from the probe deletes the stale record and reports not
running. -/
def is_running (os : OS) (fs : Fs) : Except String (Bool × Fs) :=
  match fs.pidFile with
  | none => .ok (false, fs)
  | some c =>
    match parsePid c with
    | none => .error "ValueError"
    | some pid =>
      if os.alive pid && os.permitted pid then .ok (true, fs)
      else .ok (false, remove_pid fs)

/-- Where the cooperative interrupt that the loop observes as
`KeyboardInterrupt` originated; the handler cannot distinguish the two. -/
inductive Origin where
  | user
  | graceful
deriving DecidableEq

/-- How a run of the unbounded loop ends: a cooperative interrupt delivered at
a suspension point, or some other exception raised inside the loop. -/
inductive RunEnd where
  | interrupt (o : Origin)
  | fault (msg : String)
deriving DecidableEq

/-- How the `start` invocation terminates as a process. -/
inductive Outcome where
  | alreadyRunning
  | normal
  | raised (msg : String)
deriving DecidableEq

/-- Process exit status: `sys.exit(1)` on `AlreadyRunning`, `0` on a normal
return from `run`, nonzero when an exception propagates to the interpreter. -/
def exitCode : Outcome → Nat
  | .alreadyRunning => 1
  | .normal => 0
  | .raised _ => 1

/-- Result of invoking `start`. -/
structure RunResult where
  fs : Fs
  outcome : Outcome
deriving DecidableEq

/-- The startup section of `SimpleDaemon.run`: `write_pid` plus the six banner
log lines, in source order. -/
def startupSt (os : OS) (cfg : Cfg) (env : TimeEnv) (fs : Fs) : St :=
  let st := write_pid os env (fs, 0)
  let st := log env st .sep
  let st := log env st .testStarted
  let st := log env st (.checkIntervalLine cfg.check_interval)
  let st := log env st (.logFileLine cfg.log_file)
  let st := log env st (.pidFileLine "daemon_test.pid")
  log env st .sep

/-- The `while True` body iterated `m` more times: increment the counter, log
the heartbeat, sleep for the interval (time advances through `tsAt`). -/
def loopIter (env : TimeEnv) : Nat → St → Nat → St
  | 0, st, _ => st
  | m + 1, st, counter =>
      loopIter env m (log env st (.heartbeat (counter + 1))) (counter + 1)

/-- Daemon state after startup followed by `n` completed heartbeat
iterations. -/
def afterIter (os : OS) (cfg : Cfg) (env : TimeEnv) (fs : Fs) (n : Nat) : St :=
  loopIter env n (startupSt os cfg env fs) 0

/-- The two `except` arms of `SimpleDaemon.run`'s loop, from the state the
loop reached: a cooperative interrupt logs the shutdown pair around
`remove_pid` and returns normally (exit 0); any other exception logs `ERROR`,
removes the PID file and re-raises (nonzero exit). -/
def loopPhase (env : TimeEnv) (ev : RunEnd) (st : St) : RunResult :=
  match ev with
  | .interrupt _ =>
    let st := log env st .interruptReceived
    let st := (remove_pid st.1, st.2)
    let st := log env st .stoppedGracefully
    ⟨st.1, .normal⟩
  | .fault m =>
    let st := log env st (.errorLine m)
    ⟨remove_pid st.1, .raised m⟩

/-- `SimpleDaemon.run`: the exclusion check (a `ValueError` from the pid parse
propagates uncaught; a detected live instance means `sys.exit(1)` with no
writes), then startup, then the loop until `ev` ends it after `n`
iterations. -/
def run (os : OS) (cfg : Cfg) (env : TimeEnv) (n : Nat) (ev : RunEnd) (fs : Fs) :
    RunResult :=
  match is_running os fs with
  | .error e => ⟨fs, .raised e⟩
  | .ok (true, fs1) => ⟨fs1, .alreadyRunning⟩
  | .ok (false, fs1) => loopPhase env ev (afterIter os cfg env fs1 n)

/-- Observable OS actions of a control command: an (attempted) `os.kill` and
a `time.sleep`. -/
inductive Act where
  | sendSignal (pid : Int) (sig : Nat)
  | sleep (t : Nat)
deriving DecidableEq

/-- Result of a control command: the filesystem afterwards, the OS actions it
attempted, what it printed, and the exception it let escape, if any. -/
structure CmdResult where
  fs : Fs
  trace : List Act
  printed : List String
  exn : Option String
deriving DecidableEq

/-- `lines[-5:]`. -/
def lastN (n : Nat) (l : List α) : List α :=
  l.drop (l.length - n)

/-- `stop_daemon`: no PID file means report and return.  Otherwise parse the
pid (`int` raises `ValueError` outside the `try`, so it escapes), print, and
inside `try`: send SIGTERM — if that raises `OSError` the handler prints the
error and removes the record; otherwise sleep the 2-second grace period,
re-probe with signal 0, escalate to SIGKILL only when the probe succeeds, then
remove the record. -/
def stop_daemon (os : OS) (aliveAfter : Int → Bool) (fs : Fs) : CmdResult :=
  match fs.pidFile with
  | none => ⟨fs, [], ["No daemon running (PID file not found)"], none⟩
  | some c =>
    match parsePid c with
    | none => ⟨fs, [], [], some "ValueError"⟩
    | some pid =>
      let stopping := "Stopping daemon with PID " ++ toString pid ++ "..."
      if os.alive pid && os.permitted pid then
        if aliveAfter pid && os.permitted pid then
          ⟨remove_pid fs,
           [.sendSignal pid 15, .sleep 2, .sendSignal pid 0, .sendSignal pid 9],
           [stopping, "Warning: Process still running, forcing kill..."], none⟩
        else
          ⟨remove_pid fs,
           [.sendSignal pid 15, .sleep 2, .sendSignal pid 0],
           [stopping, "Daemon stopped successfully"], none⟩
      else
        ⟨remove_pid fs, [.sendSignal pid 15],
         [stopping, "Error stopping daemon: OSError"], none⟩

/-- `status_daemon`: no PID file means report not running.  Otherwise parse
the pid (`ValueError` escapes), probe it: on success report running and print
the last five log lines; on `OSError` report the stale record and delete it. -/
def status_daemon (os : OS) (fs : Fs) : CmdResult :=
  match fs.pidFile with
  | none => ⟨fs, [], ["Daemon is NOT running (no PID file)"], none⟩
  | some c =>
    match parsePid c with
    | none => ⟨fs, [], [], some "ValueError"⟩
    | some pid =>
      if os.alive pid && os.permitted pid then
        ⟨fs, [.sendSignal pid 0],
         ("Daemon is RUNNING with PID " ++ toString pid) ::
           (if fs.log.isEmpty then []
            else "\nLast 5 log entries:" :: String.mk (List.replicate 60 '-') ::
              (lastN 5 fs.log).map renderEntry),
         none⟩
      else
        ⟨remove_pid fs, [.sendSignal pid 0],
         ["Daemon is NOT running (stale PID " ++ toString pid ++ ")"], none⟩

/-- A command result whose first printed line is one of the two
`Daemon is NOT running ...` reports from the source. -/
def notRunningReport (r : CmdResult) : Prop :=
  r.printed.head? = some "Daemon is NOT running (no PID file)" ∨
    ∃ pid : Int,
      r.printed.head? = some ("Daemon is NOT running (stale PID " ++ toString pid ++ ")")

/-- Number of `"Daemon stopped gracefully"` lines in a log. -/
def countStopped (l : List LogEntry) : Nat :=
  (l.filter fun e => e.msg == Msg.stoppedGracefully).length

/-- The heartbeat entries produced by `m` loop iterations starting at log
index `j0` with counter `c0`. -/
def hbEntries (env : TimeEnv) : Nat → Nat → Nat → List LogEntry
  | _, _, 0 => []
  | j0, c0, m + 1 =>
      ⟨tsAt env j0, .heartbeat (c0 + 1)⟩ :: hbEntries env (j0 + 1) (c0 + 1) m

/-- The seven startup log lines of a run. -/
def startupEntries (os : OS) (cfg : Cfg) (env : TimeEnv) : List LogEntry :=
  [⟨tsAt env 0, .startedWithPid os.selfPid⟩,
   ⟨tsAt env 1, .sep⟩,
   ⟨tsAt env 2, .testStarted⟩,
   ⟨tsAt env 3, .checkIntervalLine cfg.check_interval⟩,
   ⟨tsAt env 4, .logFileLine cfg.log_file⟩,
   ⟨tsAt env 5, .pidFileLine "daemon_test.pid"⟩,
   ⟨tsAt env 6, .sep⟩]

/-- Invariant carried along a run: log timestamps are non-decreasing and all
bounded by the next timestamp to be issued. -/
def StOk (env : TimeEnv) (st : St) : Prop :=
  List.Chain' (fun a b => a.ts ≤ b.ts) st.1.log ∧
    ∀ e ∈ st.1.log, e.ts ≤ tsAt env st.2

end Daemon

namespace Reg

/-- The non-key column values of one `scRNAseq_Samples` row (column name
paired with an optional value, `none` standing for SQL NULL). -/
abbrev Payload := List (String × Option String)

/-- The `scRNAseq_Samples` table: rows keyed by `SampleName`. -/
abbrev Table := List (String × Payload)

/-- The `SELECT SampleName FROM scRNAseq_Samples WHERE SampleName = :name`
existence check (`fetchone` returns a row iff a match exists). -/
def sampleExists (t : Table) (name : String) : Bool :=
  t.any fun r => r.1 == name

/-- `register_sample`: a failed connection returns `False`; an existing
`SampleName` warns and returns `False` without inserting; otherwise the row is
inserted and `True` returned. -/
def register_sample (connected : Bool) (t : Table) (name : String)
    (payload : Payload) : Bool × Table :=
  if !connected then (false, t)
  else if sampleExists t name then (false, t)
  else (true, t ++ [(name, payload)])

instance {ε α : Type} [DecidableEq ε] [DecidableEq α] : DecidableEq (Except ε α) := fun a b =>
  match a, b with
  | .ok x, .ok y =>
      if h : x = y then .isTrue (by rw [h]) else .isFalse (by simp [h])
  | .error x, .error y =>
      if h : x = y then .isTrue (by rw [h]) else .isFalse (by simp [h])
  | .ok _, .error _ => .isFalse (by simp)
  | .error _, .ok _ => .isFalse (by simp)

/-- One DataFrame row of a bulk upload: the raw `SampleName` cell and the
outcome of converting the remaining cells (`.error` when a conversion such as
`float(...)` or `pd.to_datetime(...)` raises). -/
structure BulkRow where
  rawName : String
  conv : Except String Payload
deriving DecidableEq

/-- Accumulator of `bulk_upload`: the table plus the
`inserted`/`skipped`/`errors` counters. -/
structure BulkState where
  table : Table
  inserted : Nat
  skipped : Nat
  errors : List String
deriving DecidableEq

/-- The per-row body of `bulk_upload`: strip the name; an existing name is
counted skipped; otherwise convert and insert, any conversion error being
caught and recorded for that row. -/
def bulkStep (st : BulkState) (row : BulkRow) : BulkState :=
  let name := Daemon.pyStrip row.rawName
  if sampleExists st.table name then
    { st with skipped := st.skipped + 1 }
  else
    match row.conv with
    | .ok payload =>
        { st with table := st.table ++ [(name, payload)],
                  inserted := st.inserted + 1 }
    | .error e =>
        { st with errors := st.errors ++ [name ++ ": " ++ e] }

/-- `bulk_upload`: a failed connection returns early; otherwise fold the
per-row body over the DataFrame. -/
def bulk_upload (connected : Bool) (t : Table) (rows : List BulkRow) :
    Option BulkState :=
  if !connected then none
  else some (rows.foldl bulkStep ⟨t, 0, 0, []⟩)

end Reg

/-! Concrete fixtures used by witness and counterexample theorems. -/

/-- An OS in which pid 7 is alive and every signal is permitted. -/
def osA : Daemon.OS := ⟨42, fun p => p == 7, fun _ => true⟩

/-- An OS in which no pid is alive. -/
def osDead : Daemon.OS := ⟨42, fun _ => false, fun _ => true⟩

/-- An OS in which pid 7 is alive but owned by another user: every signal,
including the existence probe, is denied with `EPERM`. -/
def osEperm : Daemon.OS := ⟨42, fun p => p == 7, fun _ => false⟩

/-- A concrete clock: start at 100, one time unit between log writes. -/
def env0 : Daemon.TimeEnv := ⟨100, fun _ => 1⟩

/-- The default construction `SimpleDaemon()`. -/
def cfg0 : Daemon.Cfg := ⟨"daemon_test.log", 30⟩

/-- Fresh filesystem: no PID file, empty log. -/
def fsEmpty : Daemon.Fs := ⟨none, []⟩

/-- A PID record naming pid 7, empty log. -/
def fs7 : Daemon.Fs := ⟨some "7", []⟩

/-- A PID file whose content is not a well-formed integer. -/
def fsBad : Daemon.Fs := ⟨some "abc", []⟩

/-- A second malformed PID file. -/
def fsBad2 : Daemon.Fs := ⟨some "xyz", []⟩

/-- Post-grace-period process table in which every process has exited. -/
def deadAfter : Int → Bool := fun _ => false

/-- Post-grace-period process table in which every process is still alive. -/
def liveAfter : Int → Bool := fun _ => true

/-- A one-row table already holding SampleName `"A"`. -/
def tblA : Reg.Table := [("A", [])]

/-- A DataFrame row whose stripped SampleName is `"A"`. -/
def rowA : Reg.BulkRow := ⟨" A ", .ok []⟩

/-! Claim theorems. -/

/-- Claim C7: calling `stop` when no PID record exists prints the
"not running" report, performs no OS action, changes no files, raises
nothing, and a repeated call behaves identically. -/
theorem stop_idempotent_no_record (os : Daemon.OS) (aliveAfter : Int → Bool)
    (fs : Daemon.Fs) (h : fs.pidFile = none) :
    Daemon.stop_daemon os aliveAfter fs =
      ⟨fs, [], ["No daemon running (PID file not found)"], none⟩ ∧
    Daemon.stop_daemon os aliveAfter (Daemon.stop_daemon os aliveAfter fs).fs =
      Daemon.stop_daemon os aliveAfter fs := by
  rcases fs with ⟨pf, lg⟩
  have h2 : pf = none := h
  subst h2
  exact ⟨rfl, rfl⟩

/-- Claim C7 witness at a concrete empty filesystem. -/
theorem stop_idempotent_no_record_w :
    Daemon.stop_daemon osA deadAfter fsEmpty =
      ⟨fsEmpty, [], ["No daemon running (PID file not found)"], none⟩ ∧
    Daemon.stop_daemon osA deadAfter (Daemon.stop_daemon osA deadAfter fsEmpty).fs =
      Daemon.stop_daemon osA deadAfter fsEmpty :=
  stop_idempotent_no_record osA deadAfter fsEmpty rfl

/-- Claim C4: when the PID record names a process that does not exist,
`status` prints a NOT-running report, deletes the record, leaves the log
untouched and raises nothing; a second `status` call again reports
not running and changes nothing. -/
theorem status_stale_heals (os : Daemon.OS) (fs : Daemon.Fs) (c : String)
    (p : Int) (h1 : fs.pidFile = some c) (h2 : Daemon.parsePid c = some p)
    (h3 : os.alive p = false) :
    Daemon.notRunningReport (Daemon.status_daemon os fs) ∧
    (Daemon.status_daemon os fs).fs.pidFile = none ∧
    (Daemon.status_daemon os fs).fs.log = fs.log ∧
    (Daemon.status_daemon os fs).exn = none ∧
    Daemon.notRunningReport
      (Daemon.status_daemon os (Daemon.status_daemon os fs).fs) ∧
    (Daemon.status_daemon os (Daemon.status_daemon os fs).fs).fs =
      (Daemon.status_daemon os fs).fs := by
  rcases fs with ⟨pf, lg⟩
  have h1a : pf = some c := h1
  subst h1a
  have e1 : Daemon.status_daemon os ⟨some c, lg⟩ =
      ⟨⟨none, lg⟩, [.sendSignal p 0],
       ["Daemon is NOT running (stale PID " ++ toString p ++ ")"], none⟩ := by
    simp [Daemon.status_daemon, h2, h3, Daemon.remove_pid]
  rw [e1]
  refine ⟨Or.inr ⟨p, rfl⟩, rfl, rfl, rfl, Or.inl rfl, rfl⟩

/-- Claim C4 witness: record names pid 7, no process alive. -/
theorem status_stale_heals_w :
    Daemon.notRunningReport (Daemon.status_daemon osDead fs7) ∧
    (Daemon.status_daemon osDead fs7).fs.pidFile = none ∧
    (Daemon.status_daemon osDead fs7).fs.log = fs7.log ∧
    (Daemon.status_daemon osDead fs7).exn = none ∧
    Daemon.notRunningReport
      (Daemon.status_daemon osDead (Daemon.status_daemon osDead fs7).fs) ∧
    (Daemon.status_daemon osDead (Daemon.status_daemon osDead fs7).fs).fs =
      (Daemon.status_daemon osDead fs7).fs :=
  status_stale_heals osDead fs7 "7" 7 rfl (by decide) rfl

/-- Claim C5 counterexample: on a PID file holding `"xyz"`, both `stop` and
`status` let the `ValueError` from the integer parse escape past the command
boundary, so the claim "never propagate an exception" is false as stated. -/
theorem control_nothrow_cx :
    fsBad2.pidFile = some "xyz" ∧
    (Daemon.stop_daemon osA deadAfter fsBad2).exn = some "ValueError" ∧
    (Daemon.status_daemon osA fsBad2).exn = some "ValueError" := by decide

/-- Claim C5 (amended): when the PID record is absent or its content parses
as an integer, `stop` and `status` catch all OS failures internally and never
raise past the command boundary; a malformed PID file instead raises
`ValueError` out of the command. -/
theorem control_nothrow_amended (os : Daemon.OS) (aliveAfter : Int → Bool)
    (fs : Daemon.Fs)
    (h : fs.pidFile = none ∨
      ∃ c p, fs.pidFile = some c ∧ Daemon.parsePid c = some p) :
    (Daemon.stop_daemon os aliveAfter fs).exn = none ∧
    (Daemon.status_daemon os fs).exn = none := by
  rcases fs with ⟨pf, lg⟩
  rcases h with h | ⟨c, p, h1, h2⟩
  · have h2 : pf = none := h
    subst h2
    exact ⟨rfl, rfl⟩
  · have h1a : pf = some c := h1
    subst h1a
    constructor
    · cases hA : os.alive p && os.permitted p <;>
        cases hB : aliveAfter p && os.permitted p <;>
          simp [Daemon.stop_daemon, h2, hA, hB]
    · cases hA : os.alive p && os.permitted p <;>
        simp [Daemon.status_daemon, h2, hA]

/-- Claim C5 witness (amended form) at a well-formed record. -/
theorem control_nothrow_amended_w :
    (Daemon.stop_daemon osA deadAfter fs7).exn = none ∧
    (Daemon.status_daemon osA fs7).exn = none :=
  control_nothrow_amended osA deadAfter fs7 (Or.inr ⟨"7", 7, rfl, by decide⟩)

/-- Claim C3 counterexample: with a record naming pid 7 but no such process,
`os.kill(7, 15)` raises at once, so `stop` neither waits the 2-unit grace
period nor re-probes — the claimed unconditional wait/re-probe sequence is
false as stated (the record is still deleted). -/
theorem stop_escalation_cx :
    fs7.pidFile = some "7" ∧
    (Daemon.stop_daemon osDead deadAfter fs7).trace =
      [Daemon.Act.sendSignal 7 15] ∧
    Daemon.Act.sleep 2 ∉ (Daemon.stop_daemon osDead deadAfter fs7).trace := by
  decide

/-- Claim C3 (amended): whenever `stop` is invoked and the PID record exists
with integer content `p`, `stop` attempts the graceful-termination signal;
when that delivery succeeds it waits the fixed 2-unit grace period, re-probes,
and sends the forceful signal exactly when the probe still reports `p` alive;
when delivery fails it skips the grace period; in every such invocation the
PID record no longer exists afterwards and no exception escapes. -/
theorem stop_escalation_amended (os : Daemon.OS) (aliveAfter : Int → Bool)
    (fs : Daemon.Fs) (c : String) (p : Int)
    (h1 : fs.pidFile = some c) (h2 : Daemon.parsePid c = some p) :
    (Daemon.stop_daemon os aliveAfter fs).fs.pidFile = none ∧
    (Daemon.stop_daemon os aliveAfter fs).exn = none ∧
    ((os.alive p && os.permitted p) = true →
      (Daemon.stop_daemon os aliveAfter fs).trace =
        [Daemon.Act.sendSignal p 15, Daemon.Act.sleep 2,
         Daemon.Act.sendSignal p 0] ++
          (if aliveAfter p && os.permitted p then [Daemon.Act.sendSignal p 9]
           else [])) ∧
    ((os.alive p && os.permitted p) = false →
      (Daemon.stop_daemon os aliveAfter fs).trace =
        [Daemon.Act.sendSignal p 15]) ∧
    (Daemon.Act.sendSignal p 9 ∈ (Daemon.stop_daemon os aliveAfter fs).trace →
      aliveAfter p = true) := by
  rcases fs with ⟨pf, lg⟩
  have h1a : pf = some c := h1
  subst h1a
  cases hA : os.alive p && os.permitted p <;>
    cases hB : aliveAfter p && os.permitted p <;>
      simp [Daemon.stop_daemon, h2, hA, hB, Daemon.remove_pid]
  all_goals simp at hB
  all_goals exact hB.1

/-- Claim C3 witness (amended form): pid 7 alive and permitted, exits within
the grace period. -/
theorem stop_escalation_amended_w :
    (Daemon.stop_daemon osA deadAfter fs7).fs.pidFile = none ∧
    (Daemon.stop_daemon osA deadAfter fs7).exn = none ∧
    ((osA.alive 7 && osA.permitted 7) = true →
      (Daemon.stop_daemon osA deadAfter fs7).trace =
        [Daemon.Act.sendSignal 7 15, Daemon.Act.sleep 2,
         Daemon.Act.sendSignal 7 0] ++
          (if deadAfter 7 && osA.permitted 7 then [Daemon.Act.sendSignal 7 9]
           else [])) ∧
    ((osA.alive 7 && osA.permitted 7) = false →
      (Daemon.stop_daemon osA deadAfter fs7).trace =
        [Daemon.Act.sendSignal 7 15]) ∧
    (Daemon.Act.sendSignal 7 9 ∈ (Daemon.stop_daemon osA deadAfter fs7).trace →
      deadAfter 7 = true) :=
  stop_escalation_amended osA deadAfter fs7 "7" 7 rfl (by decide)

/-- Claim C2 counterexample: pid 7 is alive but owned by another user, so the
existence probe fails with `EPERM`; `start` then does not fail with
`AlreadyRunning` and rewrites both the PID file and the log, refuting the
claim quantified over every state whose record names a live process. -/
theorem start_exclusion_cx :
    osEperm.alive 7 = true ∧
    fs7.pidFile = some "7" ∧
    (Daemon.run osEperm cfg0 env0 0
        (Daemon.RunEnd.interrupt Daemon.Origin.user) fs7).outcome ≠
      Daemon.Outcome.alreadyRunning ∧
    (Daemon.run osEperm cfg0 env0 0
        (Daemon.RunEnd.interrupt Daemon.Origin.user) fs7).fs.pidFile ≠
      fs7.pidFile ∧
    (Daemon.run osEperm cfg0 env0 0
        (Daemon.RunEnd.interrupt Daemon.Origin.user) fs7).fs.log ≠ fs7.log := by
  decide

/-- Claim C2 (amended): when the PID record names a live process that the
invoking user is permitted to signal, `start` fails with AlreadyRunning
(exit status 1) and modifies neither the log nor the PID file. -/
theorem start_exclusion_amended (os : Daemon.OS) (cfg : Daemon.Cfg)
    (env : Daemon.TimeEnv) (n : Nat) (ev : Daemon.RunEnd) (fs : Daemon.Fs)
    (c : String) (p : Int) (h1 : fs.pidFile = some c)
    (h2 : Daemon.parsePid c = some p) (h3 : os.alive p = true)
    (h4 : os.permitted p = true) :
    Daemon.run os cfg env n ev fs = ⟨fs, Daemon.Outcome.alreadyRunning⟩ ∧
    Daemon.exitCode (Daemon.run os cfg env n ev fs).outcome = 1 := by
  rcases fs with ⟨pf, lg⟩
  have h1a : pf = some c := h1
  subst h1a
  have hr : Daemon.is_running os ⟨some c, lg⟩ = .ok (true, ⟨some c, lg⟩) := by
    simp [Daemon.is_running, h2, h3, h4]
  constructor <;> simp [Daemon.run, hr, Daemon.exitCode]

/-- Claim C2 witness (amended form): pid 7 alive and permitted. -/
theorem start_exclusion_amended_w :
    Daemon.run osA cfg0 env0 0 (Daemon.RunEnd.interrupt Daemon.Origin.user)
        fs7 =
      ⟨fs7, Daemon.Outcome.alreadyRunning⟩ ∧
    Daemon.exitCode (Daemon.run osA cfg0 env0 0
        (Daemon.RunEnd.interrupt Daemon.Origin.user) fs7).outcome = 1 :=
  start_exclusion_amended osA cfg0 env0 0
    (Daemon.RunEnd.interrupt Daemon.Origin.user) fs7 "7" 7 rfl (by decide)
    (by decide) rfl

/-- Claim C9: a sample whose SampleName is already in the table is never
inserted: `register_sample` returns `False` leaving the table unchanged, the
per-row body of `bulk_upload` only increments the skipped counter, and a
one-row bulk upload of it reports `0 inserted, 1 skipped`. -/
theorem duplicate_sample_skipped (t : Reg.Table) (name : String)
    (payload : Reg.Payload) (st : Reg.BulkState) (row : Reg.BulkRow)
    (connected : Bool) (h1 : Reg.sampleExists t name = true)
    (h2 : Daemon.pyStrip row.rawName = name) (h3 : st.table = t) :
    Reg.register_sample connected t name payload = (false, t) ∧
    Reg.bulkStep st row = { st with skipped := st.skipped + 1 } ∧
    Reg.bulk_upload true t [row] = some ⟨t, 0, 1, []⟩ := by
  refine ⟨?_, ?_, ?_⟩
  · cases connected <;> simp [Reg.register_sample, h1]
  · simp [Reg.bulkStep, h2, h3, h1]
  · simp [Reg.bulk_upload, Reg.bulkStep, h2, h1]

/-- Claim C9 witness: `"A"` already registered, row named `" A "`. -/
theorem duplicate_sample_skipped_w :
    Reg.register_sample true tblA "A" [] = (false, tblA) ∧
    Reg.bulkStep ⟨tblA, 0, 0, []⟩ rowA =
      { (⟨tblA, 0, 0, []⟩ : Reg.BulkState) with skipped := 0 + 1 } ∧
    Reg.bulk_upload true tblA [rowA] = some ⟨tblA, 0, 1, []⟩ :=
  duplicate_sample_skipped tblA "A" [] ⟨tblA, 0, 0, []⟩ rowA true (by decide)
    (by decide) rfl

/-- Claim C10: when the existence probe against the recorded pid fails with
any OS error — `EPERM` against a live foreign-owned process included —
`is_running` deletes the PID record and returns false, and `start` on that
state proceeds exactly as if no instance were running. -/
theorem stale_probe_error_heals (os : Daemon.OS) (cfg : Daemon.Cfg)
    (env : Daemon.TimeEnv) (n : Nat) (ev : Daemon.RunEnd) (fs : Daemon.Fs)
    (c : String) (p : Int) (h1 : fs.pidFile = some c)
    (h2 : Daemon.parsePid c = some p)
    (h3 : (os.alive p && os.permitted p) = false) :
    Daemon.is_running os fs = .ok (false, Daemon.remove_pid fs) ∧
    (Daemon.run os cfg env n ev fs).outcome ≠ Daemon.Outcome.alreadyRunning ∧
    Daemon.run os cfg env n ev fs =
      Daemon.run os cfg env n ev (Daemon.remove_pid fs) := by
  rcases fs with ⟨pf, lg⟩
  have h1a : pf = some c := h1
  subst h1a
  have hr : Daemon.is_running os ⟨some c, lg⟩ =
      .ok (false, Daemon.remove_pid ⟨some c, lg⟩) := by
    simp [Daemon.is_running, h2, h3]
  refine ⟨hr, ?_, ?_⟩
  · cases ev <;>
      simp [Daemon.run, hr, Daemon.remove_pid, Daemon.loopPhase]
  · have hr2 : Daemon.is_running os ⟨none, lg⟩ = .ok (false, ⟨none, lg⟩) := rfl
    cases ev <;> simp [Daemon.run, hr, hr2, Daemon.remove_pid]

/-! Helper lemmas about the heartbeat loop. -/

/-- The clock never runs backwards between consecutive log writes. -/
theorem Daemon.tsAt_le_succ (env : Daemon.TimeEnv) (j : Nat) :
    Daemon.tsAt env j ≤ Daemon.tsAt env (j + 1) :=
  Nat.le_add_right _ _

/-- Closed form of the heartbeat loop: `m` iterations append exactly the
heartbeat entries and leave the PID file alone. -/
theorem Daemon.loopIter_spec (env : Daemon.TimeEnv) :
    ∀ (m : Nat) (st : Daemon.St) (c : Nat),
      Daemon.loopIter env m st c =
        (⟨st.1.pidFile, st.1.log ++ Daemon.hbEntries env st.2 c m⟩, st.2 + m) := by
  intro m
  induction m with
  | zero => intro st c; simp [Daemon.loopIter, Daemon.hbEntries]
  | succ k ih =>
    intro st c
    rw [Daemon.loopIter, ih]
    simp [Daemon.log, Daemon.hbEntries, List.append_assoc]
    omega

/-- Unfolding of the startup phase of a run. -/
theorem Daemon.startupSt_eq (os : Daemon.OS) (cfg : Daemon.Cfg)
    (env : Daemon.TimeEnv) (fs : Daemon.Fs) :
    Daemon.startupSt os cfg env fs =
      (⟨some (toString os.selfPid),
        fs.log ++ Daemon.startupEntries os cfg env⟩, 7) := by
  simp [Daemon.startupSt, Daemon.write_pid, Daemon.log, Daemon.startupEntries,
    List.append_assoc]

/-- Closed form of startup plus `n` heartbeat iterations. -/
theorem Daemon.afterIter_eq (os : Daemon.OS) (cfg : Daemon.Cfg)
    (env : Daemon.TimeEnv) (fs : Daemon.Fs) (n : Nat) :
    Daemon.afterIter os cfg env fs n =
      (⟨some (toString os.selfPid),
        fs.log ++ (Daemon.startupEntries os cfg env ++
          Daemon.hbEntries env 7 0 n)⟩, 7 + n) := by
  rw [Daemon.afterIter, Daemon.startupSt_eq, Daemon.loopIter_spec]
  simp [List.append_assoc]

/-- Effect of the cooperative-interrupt arm on a loop state. -/
theorem Daemon.loopPhase_interrupt (env : Daemon.TimeEnv) (o : Daemon.Origin)
    (st : Daemon.St) :
    Daemon.loopPhase env (.interrupt o) st =
      ⟨⟨none, st.1.log ++
          [⟨Daemon.tsAt env st.2, .interruptReceived⟩,
           ⟨Daemon.tsAt env (st.2 + 1), .stoppedGracefully⟩]⟩,
       .normal⟩ := by
  simp [Daemon.loopPhase, Daemon.log, Daemon.remove_pid, List.append_assoc]

/-- Both `except` arms only append to the log. -/
theorem Daemon.loopPhase_log (env : Daemon.TimeEnv) (ev : Daemon.RunEnd)
    (st : Daemon.St) :
    ∃ t, (Daemon.loopPhase env ev st).fs.log = st.1.log ++ t := by
  cases ev with
  | interrupt o =>
      exact ⟨[⟨Daemon.tsAt env st.2, .interruptReceived⟩,
              ⟨Daemon.tsAt env (st.2 + 1), .stoppedGracefully⟩],
        by simp [Daemon.loopPhase, Daemon.log, Daemon.remove_pid,
          List.append_assoc]⟩
  | fault m =>
      exact ⟨[⟨Daemon.tsAt env st.2, .errorLine m⟩],
        by simp [Daemon.loopPhase, Daemon.log, Daemon.remove_pid,
          List.append_assoc]⟩

/-- The exclusion check never rewrites the log file. -/
theorem Daemon.is_running_log (os : Daemon.OS) (fs : Daemon.Fs) (b : Bool)
    (fs1 : Daemon.Fs) (h : Daemon.is_running os fs = .ok (b, fs1)) :
    fs1.log = fs.log := by
  rcases fs with ⟨pf, lg⟩
  rcases pf with _ | c
  · simp [Daemon.is_running] at h
    rw [← h.2]
  · rcases hp : Daemon.parsePid c with _ | p
    · simp [Daemon.is_running, hp] at h
    · cases hA : os.alive p && os.permitted p <;>
        simp [Daemon.is_running, hp, hA, Daemon.remove_pid] at h <;>
          rw [← h.2]

/-- Closed form of a run that starts on a state without a PID record and ends
with a cooperative interrupt. -/
theorem Daemon.run_interrupt_spec (os : Daemon.OS) (cfg : Daemon.Cfg)
    (env : Daemon.TimeEnv) (n : Nat) (o : Daemon.Origin) (fs : Daemon.Fs)
    (h : fs.pidFile = none) :
    Daemon.run os cfg env n (.interrupt o) fs =
      ⟨⟨none, fs.log ++ (Daemon.startupEntries os cfg env ++
          (Daemon.hbEntries env 7 0 n ++
            [⟨Daemon.tsAt env (7 + n), .interruptReceived⟩,
             ⟨Daemon.tsAt env (7 + n + 1), .stoppedGracefully⟩]))⟩,
       .normal⟩ := by
  rcases fs with ⟨pf, lg⟩
  have h1 : pf = none := h
  subst h1
  have hr : Daemon.is_running os ⟨none, lg⟩ = .ok (false, ⟨none, lg⟩) := rfl
  simp only [Daemon.run, hr]
  rw [Daemon.afterIter_eq, Daemon.loopPhase_interrupt]
  simp [List.append_assoc]

/-- `countStopped` distributes over append. -/
theorem Daemon.countStopped_append (l1 l2 : List Daemon.LogEntry) :
    Daemon.countStopped (l1 ++ l2) =
      Daemon.countStopped l1 + Daemon.countStopped l2 := by
  simp [Daemon.countStopped, List.filter_append]

/-- No startup line is the graceful-shutdown line. -/
theorem Daemon.countStopped_startup (os : Daemon.OS) (cfg : Daemon.Cfg)
    (env : Daemon.TimeEnv) :
    Daemon.countStopped (Daemon.startupEntries os cfg env) = 0 := rfl

/-- No heartbeat line is the graceful-shutdown line. -/
theorem Daemon.countStopped_hb (env : Daemon.TimeEnv) :
    ∀ (m j0 c0 : Nat), Daemon.countStopped (Daemon.hbEntries env j0 c0 m) = 0 := by
  intro m
  induction m with
  | zero => intro j0 c0; rfl
  | succ k ih =>
      intro j0 c0
      have := ih (j0 + 1) (c0 + 1)
      simpa [Daemon.hbEntries, Daemon.countStopped] using this

/-- Every loop-produced entry is a heartbeat. -/
theorem Daemon.hbEntries_filter (env : Daemon.TimeEnv) :
    ∀ (m j0 c0 : Nat),
      (Daemon.hbEntries env j0 c0 m).filter (fun e => e.msg.isHeartbeat) =
        Daemon.hbEntries env j0 c0 m := by
  intro m
  induction m with
  | zero => intro j0 c0; rfl
  | succ k ih =>
      intro j0 c0
      have := ih (j0 + 1) (c0 + 1)
      simpa [Daemon.hbEntries, Daemon.Msg.isHeartbeat] using this

/-- `m` loop iterations produce `m` entries. -/
theorem Daemon.hbEntries_length (env : Daemon.TimeEnv) :
    ∀ (m j0 c0 : Nat), (Daemon.hbEntries env j0 c0 m).length = m := by
  intro m
  induction m with
  | zero => intro j0 c0; rfl
  | succ k ih =>
      intro j0 c0
      have := ih (j0 + 1) (c0 + 1)
      simpa [Daemon.hbEntries] using this

/-- The loop-produced messages are the heartbeats with consecutive counters
starting at `c0 + 1`. -/
theorem Daemon.hbEntries_msgs (env : Daemon.TimeEnv) :
    ∀ (m j0 c0 : Nat),
      (Daemon.hbEntries env j0 c0 m).map (fun e => e.msg) =
        (List.range' (c0 + 1) m).map Daemon.Msg.heartbeat := by
  intro m
  induction m with
  | zero => intro j0 c0; rfl
  | succ k ih =>
      intro j0 c0
      have := ih (j0 + 1) (c0 + 1)
      rw [List.range'_succ]
      simpa [Daemon.hbEntries] using this

/-- Logging preserves the timestamp invariant. -/
theorem Daemon.log_ok {env : Daemon.TimeEnv} {st : Daemon.St}
    (m : Daemon.Msg) (h : Daemon.StOk env st) :
    Daemon.StOk env (Daemon.log env st m) := by
  obtain ⟨hc, hb⟩ := h
  constructor
  · show List.Chain' _ (st.1.log ++ [⟨Daemon.tsAt env st.2, m⟩])
    refine List.Chain'.append hc (List.chain'_singleton _) ?_
    intro x hx y hy
    simp only [List.head?_cons, Option.mem_def, Option.some.injEq] at hy
    have hxl : x ∈ st.1.log := by
      rcases List.mem_getLast?_eq_getLast hx with ⟨hne, hxe⟩
      rw [hxe]
      exact List.getLast_mem hne
    rw [← hy]
    exact hb x hxl
  · intro e he
    rcases List.mem_append.1 he with he | he
    · exact le_trans (hb e he) (Daemon.tsAt_le_succ env st.2)
    · simp only [List.mem_singleton] at he
      rw [he]
      exact Daemon.tsAt_le_succ env st.2

/-- The loop preserves the timestamp invariant. -/
theorem Daemon.loopIter_ok (env : Daemon.TimeEnv) :
    ∀ (m : Nat) (st : Daemon.St) (c : Nat),
      Daemon.StOk env st → Daemon.StOk env (Daemon.loopIter env m st c) := by
  intro m
  induction m with
  | zero => intro st c h; exact h
  | succ k ih => intro st c h; exact ih _ _ (Daemon.log_ok _ h)

/-- On a fresh log, the startup phase satisfies the timestamp invariant. -/
theorem Daemon.startupSt_ok (os : Daemon.OS) (cfg : Daemon.Cfg)
    (env : Daemon.TimeEnv) (fs : Daemon.Fs) (h : fs.log = []) :
    Daemon.StOk env (Daemon.startupSt os cfg env fs) := by
  have h0 : Daemon.StOk env (⟨some (toString os.selfPid), fs.log⟩, 0) := by
    refine ⟨?_, ?_⟩
    · show List.Chain' _ fs.log
      rw [h]
      exact List.chain'_nil
    · intro e he
      rw [h] at he
      simp at he
  exact Daemon.log_ok _ (Daemon.log_ok _ (Daemon.log_ok _ (Daemon.log_ok _
    (Daemon.log_ok _ (Daemon.log_ok _ (Daemon.log_ok _ h0))))))

/-- Claim C1: a graceful-termination request delivered to the heartbeat loop
(the cooperative interrupt the loop observes as `KeyboardInterrupt`, per the
spec glossary) makes `run` return normally with exit status 0, delete the PID
record, and append exactly one "Daemon stopped gracefully" line — with a
result identical to a user-initiated interrupt. -/
theorem graceful_interrupt_cleanup (os : Daemon.OS) (cfg : Daemon.Cfg)
    (env : Daemon.TimeEnv) (n : Nat) (origin : Daemon.Origin)
    (fs : Daemon.Fs) (h : fs.pidFile = none) :
    (Daemon.run os cfg env n (.interrupt origin) fs).outcome =
      Daemon.Outcome.normal ∧
    Daemon.exitCode (Daemon.run os cfg env n (.interrupt origin) fs).outcome
      = 0 ∧
    (Daemon.run os cfg env n (.interrupt origin) fs).fs.pidFile = none ∧
    Daemon.countStopped (Daemon.run os cfg env n (.interrupt origin) fs).fs.log
      = Daemon.countStopped fs.log + 1 ∧
    Daemon.run os cfg env n (.interrupt origin) fs =
      Daemon.run os cfg env n (.interrupt .user) fs := by
  rw [Daemon.run_interrupt_spec os cfg env n origin fs h,
    Daemon.run_interrupt_spec os cfg env n .user fs h]
  refine ⟨rfl, rfl, rfl, ?_, rfl⟩
  rw [Daemon.countStopped_append, Daemon.countStopped_append,
    Daemon.countStopped_append, Daemon.countStopped_startup,
    Daemon.countStopped_hb]
  rfl

/-- Claim C1 witness: two heartbeats, then the graceful interrupt. -/
theorem graceful_interrupt_cleanup_w :
    (Daemon.run osA cfg0 env0 2
        (.interrupt Daemon.Origin.graceful) fsEmpty).outcome =
      Daemon.Outcome.normal ∧
    Daemon.exitCode (Daemon.run osA cfg0 env0 2
        (.interrupt Daemon.Origin.graceful) fsEmpty).outcome = 0 ∧
    (Daemon.run osA cfg0 env0 2
        (.interrupt Daemon.Origin.graceful) fsEmpty).fs.pidFile = none ∧
    Daemon.countStopped (Daemon.run osA cfg0 env0 2
        (.interrupt Daemon.Origin.graceful) fsEmpty).fs.log =
      Daemon.countStopped fsEmpty.log + 1 ∧
    Daemon.run osA cfg0 env0 2 (.interrupt Daemon.Origin.graceful) fsEmpty =
      Daemon.run osA cfg0 env0 2 (.interrupt .user) fsEmpty :=
  graceful_interrupt_cleanup osA cfg0 env0 2 Daemon.Origin.graceful fsEmpty rfl

/-- Claim C6: after `n ≥ 1` heartbeat iterations on a fresh log, the log holds
exactly `n` heartbeat lines, their counters are exactly `1..n` in increasing
order, and all timestamps in the log are non-decreasing. -/
theorem heartbeat_monotone (os : Daemon.OS) (cfg : Daemon.Cfg)
    (env : Daemon.TimeEnv) (fs : Daemon.Fs) (n : Nat) (_h1 : 1 ≤ n)
    (h2 : fs.log = []) :
    ((Daemon.afterIter os cfg env fs n).1.log.filter
        (fun e => e.msg.isHeartbeat)).length = n ∧
    ((Daemon.afterIter os cfg env fs n).1.log.filter
        (fun e => e.msg.isHeartbeat)).map (fun e => e.msg) =
      (List.range' 1 n).map Daemon.Msg.heartbeat ∧
    List.Chain' (fun a b => a.ts ≤ b.ts)
      (Daemon.afterIter os cfg env fs n).1.log := by
  have hfil : (Daemon.afterIter os cfg env fs n).1.log.filter
      (fun e => e.msg.isHeartbeat) = Daemon.hbEntries env 7 0 n := by
    rw [Daemon.afterIter_eq]
    simp only [h2, List.nil_append, List.filter_append]
    have hs : (Daemon.startupEntries os cfg env).filter
        (fun e => e.msg.isHeartbeat) = [] := rfl
    rw [hs, List.nil_append, Daemon.hbEntries_filter]
  refine ⟨?_, ?_, ?_⟩
  · rw [hfil, Daemon.hbEntries_length]
  · rw [hfil]
    have := Daemon.hbEntries_msgs env n 7 0
    simpa using this
  · exact (Daemon.loopIter_ok env n _ 0
      (Daemon.startupSt_ok os cfg env fs h2)).1

/-- Claim C6 witness: three iterations on a fresh state. -/
theorem heartbeat_monotone_w :
    ((Daemon.afterIter osA cfg0 env0 fsEmpty 3).1.log.filter
        (fun e => e.msg.isHeartbeat)).length = 3 ∧
    ((Daemon.afterIter osA cfg0 env0 fsEmpty 3).1.log.filter
        (fun e => e.msg.isHeartbeat)).map (fun e => e.msg) =
      (List.range' 1 3).map Daemon.Msg.heartbeat ∧
    List.Chain' (fun a b => a.ts ≤ b.ts)
      (Daemon.afterIter osA cfg0 env0 fsEmpty 3).1.log :=
  heartbeat_monotone osA cfg0 env0 fsEmpty 3 (by decide) rfl

/-- Claim C8: the heartbeat log is append-only across the lifecycle — a run
only ever appends to the pre-existing log, and the control commands `stop`
and `status` never change the log's content at all. -/
theorem log_append_only (os : Daemon.OS) (cfg : Daemon.Cfg)
    (env : Daemon.TimeEnv) (n : Nat) (ev : Daemon.RunEnd) (fs : Daemon.Fs)
    (aliveAfter : Int → Bool) :
    (∃ t, (Daemon.run os cfg env n ev fs).fs.log = fs.log ++ t) ∧
    (Daemon.stop_daemon os aliveAfter fs).fs.log = fs.log ∧
    (Daemon.status_daemon os fs).fs.log = fs.log := by
  refine ⟨?_, ?_, ?_⟩
  · rcases hri : Daemon.is_running os fs with e | ⟨b, fs1⟩
    · exact ⟨[], by simp [Daemon.run, hri]⟩
    · have hl := Daemon.is_running_log os fs b fs1 hri
      cases b
      · obtain ⟨t2, ht2⟩ :=
          Daemon.loopPhase_log env ev (Daemon.afterIter os cfg env fs1 n)
        refine ⟨Daemon.startupEntries os cfg env ++
          (Daemon.hbEntries env 7 0 n ++ t2), ?_⟩
        simp only [Daemon.run, hri]
        rw [ht2, Daemon.afterIter_eq]
        simp [hl, List.append_assoc]
      · exact ⟨[], by simp [Daemon.run, hri, hl]⟩
  · rcases fs with ⟨pf, lg⟩
    rcases pf with _ | c
    · rfl
    · rcases hp : Daemon.parsePid c with _ | p
      · simp [Daemon.stop_daemon, hp]
      · cases hA : os.alive p && os.permitted p <;>
          cases hB : aliveAfter p && os.permitted p <;>
            simp [Daemon.stop_daemon, hp, hA, hB, Daemon.remove_pid]
  · rcases fs with ⟨pf, lg⟩
    rcases pf with _ | c
    · rfl
    · rcases hp : Daemon.parsePid c with _ | p
      · simp [Daemon.status_daemon, hp]
      · cases hA : os.alive p && os.permitted p <;>
          simp [Daemon.status_daemon, hp, hA, Daemon.remove_pid]

/-- Claim C10 witness: pid 7 alive but probe denied with `EPERM`. -/
theorem stale_probe_error_heals_w :
    Daemon.is_running osEperm fs7 = .ok (false, Daemon.remove_pid fs7) ∧
    (Daemon.run osEperm cfg0 env0 1
        (Daemon.RunEnd.interrupt Daemon.Origin.graceful) fs7).outcome ≠
      Daemon.Outcome.alreadyRunning ∧
    Daemon.run osEperm cfg0 env0 1
        (Daemon.RunEnd.interrupt Daemon.Origin.graceful) fs7 =
      Daemon.run osEperm cfg0 env0 1
        (Daemon.RunEnd.interrupt Daemon.Origin.graceful)
        (Daemon.remove_pid fs7) :=
  stale_probe_error_heals osEperm cfg0 env0 1
    (Daemon.RunEnd.interrupt Daemon.Origin.graceful) fs7 "7" 7 rfl (by decide)
    (by decide)
